import Mathlib

/-!
# Verification of the intuition-mcp-server tool-dispatch and session layer

Shallow embedding of the MCP server in `src/index.ts` (two entrypoint
variants), the operation handlers in `src/operations/`, and the parts of
their behavior the specification describes.  Remote GraphQL I/O is
abstracted as an oracle (`World`) supplying, for each operation, the
outcome of its network call: either a response payload or a thrown
JavaScript exception.
-/

namespace IntuitionMcp

/-- A restricted JSON value type covering the shapes the tool argument
schemas distinguish: strings, arrays of strings, numbers, null, and the
(opaque) empty object. -/
inductive JVal where
  | str (s : String)
  | strArr (xs : List String)
  | num (n : Int)
  | null
  | emptyObj
deriving DecidableEq, Repr

/-- A raw tool-argument mapping (`request.params.arguments` when present):
field name to JSON value. -/
abbrev Args := List (String × JVal)

/-- Look up a field of an argument object. -/
def argField (args : Args) (k : String) : Option JVal :=
  List.lookup k args

/-- A thrown JavaScript value, as the dispatcher and handlers distinguish
them: a Zod validation error (`z.ZodError`, carrying its issue messages),
any other `Error` (message plus optional stack), or a non-`Error` value
(modelled by its stringification). -/
inductive JSException where
  | zodError (issues : List String)
  | jsError (message : String) (stack : Option String)
  | other (value : String)
deriving DecidableEq, Repr

/-- Abstraction of `ZodError.message` (which serializes the issue list):
the issue messages joined. -/
def zodMessage (issues : List String) : String :=
  String.intercalate ", " issues

/-- `error instanceof Error`: ZodError extends Error; plain Errors are
Errors; other thrown values are not. -/
def JSException.isErrorInstance : JSException → Bool
  | .zodError _ => true
  | .jsError _ _ => true
  | .other _ => false

/-- The string the catch blocks extract:
`error instanceof Error ? error.message : String(error)`. -/
def JSException.caughtText : JSException → String
  | .zodError issues => zodMessage issues
  | .jsError m _ => m
  | .other v => v

/-- The text of the uniform catch-block content item:
`` `Error: ${error instanceof Error ? error.message : String(error)}` ``. -/
def jsErrorText (e : JSException) : String :=
  "Error: " ++ e.caughtText

/-- One MCP content item: `{type:'text', text, data?}` or
`{type:'resource', resource:{uri, text, mimeType}}`.  The only `data`
payload reaching a returned envelope is the `extract_triples` result, a
list of string triples. -/
inductive ContentItem where
  | text (text : String) (data : Option (List (List String)))
  | resource (uri : String) (text : String) (mimeType : String)
deriving DecidableEq, Repr

/-- An MCP tool result envelope.  `isError` is the optional `isError`
flag (absent on paths that never set it); `hasMeta` records whether the
envelope carries the `_meta: ...` field the `index.ts` dispatcher adds. -/
structure ToolResult where
  content : List ContentItem
  isError : Option Bool := none
  hasMeta : Bool := false
deriving DecidableEq, Repr

/-! ## Zod parameter schemas of the registered tools -/

/-- `search_atoms` arguments: `queries: z.array(z.string().min(1)).min(1)`. -/
structure SearchAtomsArgs where
  queries : List String
deriving DecidableEq, Repr

/-- `search_lists` arguments: `query: z.string().min(1)`. -/
structure SearchListsArgs where
  query : String
deriving DecidableEq, Repr

/-- `get_account_info` arguments: `address: z.string().optional()` refined
by `data => data.address` (JS truthiness: present and non-empty). -/
structure AccountInfoArgs where
  address : Option String
deriving DecidableEq, Repr

/-- `get_following` / `get_followers` arguments:
`account_id: z.string().min(1)`, `predicate: z.string().min(1).optional()`. -/
structure FollowArgs where
  account_id : String
  predicate : Option String
deriving DecidableEq, Repr

/-- `extract_triples` arguments (`ExtractTriplesSchema` in
`operations/triples.js`, the second document of `src/Dockerfile`):
an object with a string field `input` (no minimum-length constraint). -/
structure ExtractTriplesArgs where
  input : String
deriving DecidableEq, Repr

/-- `search_account_ids` arguments
(`operations/search-account-ids.ts`, the third document of
`src/Dockerfile`): `identifier: z.string().min(1)`. -/
structure SearchAccountIdsArgs where
  identifier : String
deriving DecidableEq, Repr

/-- `z.parse` for the `search_atoms` schema.  Issue messages model Zod's
defaults. -/
def parseSearchAtoms (args : Args) : Except JSException SearchAtomsArgs :=
  match argField args "queries" with
  | some (.strArr qs) =>
    if qs.isEmpty then
      .error (.zodError ["Array must contain at least 1 element(s)"])
    else if qs.all (fun q => 1 ≤ q.length) then
      .ok { queries := qs }
    else
      .error (.zodError ["String must contain at least 1 character(s)"])
  | some _ => .error (.zodError ["Expected array, received other"])
  | none => .error (.zodError ["Required"])

/-- `z.parse` for the `search_lists` schema. -/
def parseSearchLists (args : Args) : Except JSException SearchListsArgs :=
  match argField args "query" with
  | some (.str s) =>
    if 1 ≤ s.length then .ok { query := s }
    else .error (.zodError ["String must contain at least 1 character(s)"])
  | some _ => .error (.zodError ["Expected string, received other"])
  | none => .error (.zodError ["Required"])

/-- `z.parse` for the `get_account_info` schema: the `refine` rejects an
absent or empty (falsy) address. -/
def parseAccountInfo (args : Args) : Except JSException AccountInfoArgs :=
  match argField args "address" with
  | some (.str s) =>
    if 1 ≤ s.length then .ok { address := some s }
    else .error (.zodError ["Address must be provided"])
  | some _ => .error (.zodError ["Expected string, received other"])
  | none => .error (.zodError ["Address must be provided"])

/-- `z.parse` for the `get_following` / `get_followers` schema. -/
def parseFollow (args : Args) : Except JSException FollowArgs :=
  match argField args "account_id" with
  | some (.str s) =>
    if 1 ≤ s.length then
      match argField args "predicate" with
      | none => .ok { account_id := s, predicate := none }
      | some (.str p) =>
        if 1 ≤ p.length then .ok { account_id := s, predicate := some p }
        else .error (.zodError ["String must contain at least 1 character(s)"])
      | some _ => .error (.zodError ["Expected string, received other"])
    else .error (.zodError ["String must contain at least 1 character(s)"])
  | some _ => .error (.zodError ["Expected string, received other"])
  | none => .error (.zodError ["Required"])

/-- `z.parse` for the `extract_triples` schema
(`ExtractTriplesSchema`): `input` must be present and a string; any
string value is accepted. -/
def parseExtractTriples (args : Args) : Except JSException ExtractTriplesArgs :=
  match argField args "input" with
  | some (.str s) => .ok { input := s }
  | some _ => .error (.zodError ["Expected string, received other"])
  | none => .error (.zodError ["Required"])

/-- `z.parse` for the `search_account_ids` schema:
`identifier: z.string().min(1)`. -/
def parseSearchAccountIds (args : Args) : Except JSException SearchAccountIdsArgs :=
  match argField args "identifier" with
  | some (.str s) =>
    if 1 ≤ s.length then .ok { identifier := s }
    else .error (.zodError ["String must contain at least 1 character(s)"])
  | some _ => .error (.zodError ["Expected string, received other"])
  | none => .error (.zodError ["Required"])

/-- `extractTriples` (`operations/triples.js`, second document of
`src/Dockerfile`): ignores its input and resolves to the fixed triple
list `[['foo','is','bar'], ['bar','is','foo']]`; it never rejects. -/
def extractTriples (_input : String) : List (List String) :=
  [["foo", "is", "bar"], ["bar", "is", "foo"]]

/-! ## The `search_atoms` GraphQL query builder (`SEARCH_ATOMS`) -/

/-- The name of the i-th query variable: `like{i}Str`. -/
def searchAtomsVarName (i : Nat) : String :=
  "like" ++ toString i ++ "Str"

/-- The i-th variable declaration in the query header:
`$like{i}Str: String!`. -/
def searchAtomsVarDecl (i : Nat) : String :=
  "$" ++ searchAtomsVarName i ++ ": String!"

/-- The declared-variable list of the generated query document: one
declaration per element of `params` (the builder maps over `params` with
its index and ignores the element values). -/
def searchAtomsVarDecls (params : List String) : List String :=
  (List.range params.length).map searchAtomsVarDecl

/-- The declared variable names of the generated query document. -/
def searchAtomsDeclaredNames (params : List String) : List String :=
  (List.range params.length).map searchAtomsVarName

/-- The i-th `_or` disjunct block of the query body (ten `_ilike` clauses
referring to `$like{i}Str`). -/
def searchAtomsOrClause (i : Nat) : String :=
  let v := "$" ++ searchAtomsVarName i
  "\x7b value: \x7b account: \x7b label: \x7b  _ilike: " ++ v ++ " \x7d\x7d\x7d\x7d\n" ++
  "          \x7b value: \x7b thing: \x7b url: \x7b  _ilike: " ++ v ++ " \x7d\x7d\x7d\x7d\n" ++
  "          \x7b value: \x7b thing: \x7b name: \x7b  _ilike: " ++ v ++ " \x7d\x7d\x7d\x7d\n" ++
  "          \x7b value: \x7b thing: \x7b description: \x7b  _ilike: " ++ v ++ " \x7d\x7d\x7d\x7d\n" ++
  "          \x7b value: \x7b person: \x7b url: \x7b _ilike: " ++ v ++ " \x7d \x7d \x7d \x7d\n" ++
  "          \x7b value: \x7b person: \x7b name: \x7b _ilike: " ++ v ++ " \x7d \x7d \x7d \x7d\n" ++
  "          \x7b value: \x7b person: \x7b description: \x7b _ilike: " ++ v ++ " \x7d \x7d \x7d \x7d\n" ++
  "          \x7b value: \x7b organization: \x7b url: \x7b _ilike: " ++ v ++ " \x7d \x7d \x7d \x7d\n" ++
  "          \x7b value: \x7b organization: \x7b name: \x7b _ilike: " ++ v ++ " \x7d \x7d \x7d \x7d\n" ++
  "          \x7b value: \x7b organization: \x7b description: \x7b _ilike: " ++ v ++ " \x7d \x7d \x7d \x7d"

/-- The fixed selection-set tail of the generated query document. -/
def searchAtomsQueryTail : String :=
  "\n        ]\n      \x7d\n      order_by: \x7b vault: \x7b position_count: desc \x7d \x7d\n    ) \x7b\n      id\n      label\n      value \x7b ... \x7d\n      vault \x7b ... \x7d\n      as_subject_triples \x7b ... \x7d\n    \x7d\n  \x7d\n"

/-- `SEARCH_ATOMS(params)`: the generated GraphQL query document.  The
header declares exactly one variable per element of `params`; the `_or`
body repeats one disjunct block per element. -/
def SEARCH_ATOMS (params : List String) : String :=
  "\n  query SearchAtoms(" ++
    String.intercalate ", " (searchAtomsVarDecls params) ++
  ") \x7b\n    atoms(\n      where: \x7b\n        _or: [\n        " ++
    String.intercalate "\n" ((List.range params.length).map searchAtomsOrClause) ++
  searchAtomsQueryTail

/-- The variables object the `search_atoms` handler sends: one entry
`like{i}Str ↦ '%' ++ queries[i]` (leading wildcard only) for every index
`i` of the full, untruncated `queries` array. -/
def atomSearchVars (queries : List String) : List (String × String) :=
  (List.range queries.length).map
    (fun i => (searchAtomsVarName i, "%" ++ queries.getD i ""))

/-- The GraphQL request the `search_atoms` handler issues: the query
document built from the first five queries (`queries.slice(0, 5)`)
together with the variables object for all of them. -/
def atomSearchRequest (queries : List String) : String × List (String × String) :=
  (SEARCH_ATOMS (queries.take 5), atomSearchVars queries)

/-! ## The remote-call oracle -/

/-- Outcomes of the remote GraphQL calls, one field per operation.  Each
is a function of the request the operation actually sends; a `.error`
value models the awaited promise rejecting with that exception.
`searchLists` yields the `predicate_objects` field: `none` models a
non-array value, `some items` an array of (opaquely serialized) rows.
`searchAccountIds` is a function of the `%identifier%` pattern the
handler puts in its `_ilike` filter.  (`extract_triples` performs no
remote call: `extractTriples` is a pure function.) -/
structure World where
  searchAtoms : String × List (String × String) → Except JSException String
  accountInfo : String → Except JSException (Option String)
  searchLists : String → Except JSException (Option (List String))
  getFollowing : FollowArgs → Except JSException String
  getFollowers : FollowArgs → Except JSException String
  searchAccountIds : String → Except JSException String

/-- An all-succeeding oracle, used to evaluate the model at concrete
inputs. -/
def worldOk : World where
  searchAtoms := fun _ => .ok "[]"
  accountInfo := fun _ => .ok none
  searchLists := fun _ => .ok (some [])
  getFollowing := fun _ => .ok "following"
  getFollowers := fun _ => .ok "followers"
  searchAccountIds := fun _ => .ok "[]"

/-- `JSON.stringify` of an array of opaquely serialized rows. -/
def jsonArrayStringify (items : List String) : String :=
  "[" ++ String.intercalate "," items ++ "]"

/-! ## Operation handlers (`execute`) -/

/-- `atomSearchOperation.execute`: issue `atomSearchRequest`, wrap the
serialized atoms in a resource item; the catch block converts any
exception to an `Error:` text item (no `isError` flag on either path). -/
def atomSearchExecute (args : SearchAtomsArgs) (w : World) : ToolResult :=
  match w.searchAtoms (atomSearchRequest args.queries) with
  | .ok payload =>
    { content := [.resource "atom-search-result" payload "application/json"] }
  | .error e => { content := [.text (jsErrorText e) none] }

/-- `searchListsOperation.execute`.  The try block revalidates the
arguments (`parameters.parse`), issues the search with pattern
`%query%`, and returns the no-results text result or the resource
result; the catch block distinguishes `ZodError` (a `Validation Error:`
text), `Error` (an `Operation Error:` text plus a `Details:` text
carrying `error.stack`), and other thrown values.  Each throw site is
inlined with the catch branch that receives it. -/
def searchListsExecute (args : SearchListsArgs) (w : World) : ToolResult :=
  if 1 ≤ args.query.length then
    match w.searchLists ("%" ++ args.query ++ "%") with
    | .ok po =>
      let validResults := po.getD []
      if validResults.isEmpty then
        { isError := some false,
          content := [.text "No lists found matching your search criteria." none] }
      else
        { isError := some false,
          content := [.resource "list-search-result"
            (jsonArrayStringify validResults) "application/json"] }
    | .error (.zodError issues) =>
      { isError := some true,
        content := [.text ("Validation Error: " ++ String.intercalate ", " issues) none] }
    | .error (.jsError m st) =>
      { isError := some true,
        content := [.text ("Operation Error: " ++ m) none,
                    .text ("Details: " ++ st.getD "No stack trace available") none] }
    | .error (.other v) =>
      { isError := some true, content := [.text ("Unknown Error: " ++ v) none] }
  else
    { isError := some true,
      content := [.text ("Validation Error: " ++
        String.intercalate ", " ["String must contain at least 1 character(s)"]) none] }

/-- `getAccountInfoOperation.execute`: account `null` yields a text
apology, otherwise a resource item; the catch yields an `Error:` text. -/
def accountInfoExecute (args : AccountInfoArgs) (w : World) : ToolResult :=
  match w.accountInfo (args.address.getD "undefined") with
  | .ok none =>
    { content := [.text ("Je n’ai trouvé aucun compte associé à l’adresse " ++
        args.address.getD "undefined" ++ ".") none] }
  | .ok (some s) => { content := [.resource "account-info" s "application/json"] }
  | .error e => { content := [.text (jsErrorText e) none] }

/-- `getFollowingOperation.execute`: resource envelope on success,
`Error:` text on exception. -/
def getFollowingExecute (args : FollowArgs) (w : World) : ToolResult :=
  match w.getFollowing args with
  | .ok payload =>
    { content := [.resource "get-following-result" payload "application/json"] }
  | .error e => { content := [.text (jsErrorText e) none] }

/-- `getFollowersOperation.execute`: resource envelope on success,
`Error:` text on exception. -/
def getFollowersExecute (args : FollowArgs) (w : World) : ToolResult :=
  match w.getFollowers args with
  | .ok payload =>
    { content := [.resource "get-followers-result" payload "application/json"] }
  | .error e => { content := [.text (jsErrorText e) none] }

/-- `searchAccountIdsOperation.execute`
(`operations/search-account-ids.ts`, third document of
`src/Dockerfile`): query accounts whose label matches `%identifier%`,
wrap the serialized result in a resource envelope; the catch yields an
`Error:` text. -/
def searchAccountIdsExecute (args : SearchAccountIdsArgs) (w : World) : ToolResult :=
  match w.searchAccountIds ("%" ++ args.identifier ++ "%") with
  | .ok payload =>
    { content := [.resource "search-account-ids-result" payload "application/json"] }
  | .error e => { content := [.text (jsErrorText e) none] }

/-! ## The tool dispatcher (`CallToolRequestSchema` handler, first
entrypoint variant, `src/index.ts` lines 143-225) -/

/-- The try block of the dispatcher: absent (falsy) arguments throw
`Arguments are required`; each registered tool parses its arguments
(which may throw a `ZodError`) and runs its handler; an unrecognized
name throws `Unknown tool: <name>`.  Note the guard
`if (!request.params.arguments)` does not fire on an empty object,
which is truthy. -/
def dispatchExc (name : String) (rawArgs : Option Args) (w : World) :
    Except JSException ToolResult :=
  match rawArgs with
  | none => .error (.jsError "Arguments are required" none)
  | some args =>
    if name = "extract_triples" then
      match parseExtractTriples args with
      | .error e => .error e
      | .ok a =>
        .ok { content := [.text "Extracted triples" (some (extractTriples a.input))],
              hasMeta := true }
    else if name = "search_atoms" then
      match parseSearchAtoms args with
      | .error e => .error e
      | .ok a => .ok (atomSearchExecute a w)
    else if name = "get_account_info" then
      match parseAccountInfo args with
      | .error e => .error e
      | .ok a => .ok (accountInfoExecute a w)
    else if name = "search_lists" then
      match parseSearchLists args with
      | .error e => .error e
      | .ok a => .ok (searchListsExecute a w)
    else if name = "get_following" then
      match parseFollow args with
      | .error e => .error e
      | .ok a => .ok (getFollowingExecute a w)
    else if name = "get_followers" then
      match parseFollow args with
      | .error e => .error e
      | .ok a => .ok (getFollowersExecute a w)
    else if name = "search_account_ids" then
      match parseSearchAccountIds args with
      | .error e => .error e
      | .ok a => .ok (searchAccountIdsExecute a w)
    else
      .error (.jsError ("Unknown tool: " ++ name) none)

/-- The tool names the first entrypoint variant's `switch` recognizes
(the names of the `TOOLS` registry). -/
def registeredTools : List String :=
  ["extract_triples", "search_atoms", "get_account_info", "search_lists",
   "get_following", "get_followers", "search_account_ids"]

/-- The full dispatcher: the catch block converts any exception escaping
the try block into the uniform `Error:` text envelope (with `_meta`,
without `isError`). -/
def dispatchToolCall (name : String) (rawArgs : Option Args) (w : World) : ToolResult :=
  match dispatchExc name rawArgs w with
  | .ok r => r
  | .error e => { content := [.text (jsErrorText e) none], hasMeta := true }

/-! ## HTTP session layer (`runHttpServer`, both entrypoint variants) -/

/-- One entry of the first variant's session table
(`transports: Record<string, Transport>`): activity timestamps; the
transport object itself is identified by its key. -/
structure SessionEntry where
  lastActivity : Nat
  createdAt : Nat
deriving DecidableEq, Repr

/-- The first variant's session table, keyed by session id. -/
abbrev SessionTable := List (String × SessionEntry)

/-- JS object-assignment into the table (`transports[id] = entry`):
overwrites an existing binding, otherwise appends. -/
def tableSet (t : SessionTable) (k : String) (v : SessionEntry) : SessionTable :=
  if (List.lookup k t).isSome then
    t.map (fun p => if p.1 = k then (k, v) else p)
  else
    t ++ [(k, v)]

/-- The body of an inbound `/mcp` request, as far as the session layer
distinguishes it: an initialization-type protocol message or anything
else (opaque payload). -/
inductive ReqBody where
  | init
  | nonInit (payload : String)
deriving DecidableEq, Repr

/-- The response bodies the `/mcp` handlers can produce. -/
inductive HttpBody where
  | jsonRpcError (jsonrpc : String) (code : Int) (message : String) (idIsNull : Bool)
  | text (s : String)
  | handled (sessionId : String)
  | initialized (sessionId : String)
  | badRequest (message : String)
deriving DecidableEq, Repr

/-- An HTTP response: status code and body. -/
structure HttpResponse where
  status : Nat
  body : HttpBody
deriving DecidableEq, Repr

/-- The 401 unknown-session response:
`{jsonrpc:'2.0', error:{code:-32001, message:'Invalid session, please
reinitialize'}, id:null}`. -/
def invalidSessionResponse : HttpResponse :=
  { status := 401,
    body := .jsonRpcError "2.0" (-32001) "Invalid session, please reinitialize" true }

/-- Modelled from the spec: `StreamableHTTPServerTransport.handleRequest`
on a freshly constructed transport (MCP SDK, not in this repository).
Per the spec, an initialization-type body triggers the session-id
generator and the `onsessioninitialized` callback and answers with the
new session id; "a request with no `sessionId` and a non-initialization
body is rejected with a 'bad request: session required' error rather
than silently starting a session".  Returns the response and the
initialized session id, if any. -/
def freshStreamableHandle (body : ReqBody) (genId : String) :
    HttpResponse × Option String :=
  match body with
  | .init => ({ status := 200, body := .initialized genId }, some genId)
  | .nonInit _ =>
    ({ status := 400, body := .badRequest "Bad Request: session required" }, none)

/-- The `if (!sessionId)` branch of the first variant's `POST /mcp`
handler: create a fresh transport; its `onsessioninitialized` callback
registers the generated id (only an initialization body initializes a
session). -/
def mcpPostInitBranch (t : SessionTable) (body : ReqBody) (now : Nat)
    (genId : String) : HttpResponse × SessionTable :=
  match freshStreamableHandle body genId with
  | (resp, some sid) => (resp, tableSet t sid { createdAt := now, lastActivity := now })
  | (resp, none) => (resp, t)

/-- The first variant's `POST /mcp` handler (`src/index.ts` lines
255-315).  The guard `if (!sessionId)` is a JS truthiness test: it
fires when the `mcp-session-id` header is absent *and* when its value
is the empty string, both being falsy, so both take the
initialization branch.  A non-empty known header refreshes
`lastActivity` and delegates; a non-empty unknown header gets 401
without the table being touched.  `genId` stands for the `randomUUID()`
the generator would produce; `now` for `Date.now()`. -/
def handleMcpPostV1 (t : SessionTable) (sessionId : Option String)
    (body : ReqBody) (now : Nat) (genId : String) : HttpResponse × SessionTable :=
  match sessionId with
  | none => mcpPostInitBranch t body now genId
  | some s =>
    if s = "" then mcpPostInitBranch t body now genId
    else
      match List.lookup s t with
      | none => (invalidSessionResponse, t)
      | some entry =>
        ({ status := 200, body := .handled s },
          tableSet t s { entry with lastActivity := now })

/-- The first variant's `DELETE /mcp` handler (`src/index.ts` lines
318-329): close and delete a known session, then answer 200
`Session terminated`; for an absent or unknown id the body is skipped
and the same 200 is sent.  The third component lists the transports
closed. -/
def handleMcpDeleteV1 (t : SessionTable) (sessionId : Option String) :
    HttpResponse × SessionTable × List String :=
  let ok200 : HttpResponse := { status := 200, body := .text "Session terminated" }
  match sessionId with
  | some s =>
    match List.lookup s t with
    | some _ => (ok200, t.filter (fun p => p.1 != s), [s])
    | none => (ok200, t, [])
  | none => (ok200, t, [])

/-- The second variant's `app.all('/mcp')` handler (`src/index.ts` lines
652-691).  Its table (`transports.streamable`) holds only transports, so
it is modelled as the list of registered ids.  The `if (!sessionId)`
truthiness guard fires for an absent header and for an empty header
value alike; in that branch the handler constructs a transport whose
`sessionId` is still unset, so the `if (transport.sessionId)` guard
fails and the handler returns without registering anything or writing
any response (`none`). -/
def handleMcpAllV2 (t : List String) (sessionId : Option String)
    (_body : ReqBody) : Option HttpResponse × List String :=
  match sessionId with
  | none => (none, t)
  | some s =>
    if s = "" then (none, t)
    else if s ∈ t then (some { status := 200, body := .handled s }, t)
    else (some invalidSessionResponse, t)

/-! ## Helper lemmas -/

theorem lookup_filter_self (t : SessionTable) (s : String) :
    List.lookup s (t.filter (fun p => p.1 != s)) = none := by
  induction t with
  | nil => rfl
  | cons hd tl ih =>
    rcases hd with ⟨k, v⟩
    by_cases h : k = s
    · subst h
      rw [List.filter_cons, if_neg (by simp)]
      exact ih
    · rw [List.filter_cons, if_pos (by simp [h]), List.lookup_cons,
        beq_false_of_ne (Ne.symm h)]
      exact ih

theorem lookup_filter_ne (t : SessionTable) (s k : String) (h : k ≠ s) :
    List.lookup k (t.filter (fun p => p.1 != s)) = List.lookup k t := by
  induction t with
  | nil => rfl
  | cons hd tl ih =>
    rcases hd with ⟨k', v⟩
    by_cases h2 : k' = s
    · subst h2
      rw [List.filter_cons, if_neg (by simp), List.lookup_cons,
        beq_false_of_ne h]
      exact ih
    · rw [List.filter_cons, if_pos (by simp [h2]), List.lookup_cons,
        List.lookup_cons]
      by_cases h3 : k = k'
      · rw [beq_iff_eq.mpr h3]
      · rw [beq_false_of_ne h3]
        exact ih

/-! ## Claim theorems -/

/-- C1 counterexample: an *empty* `mcp-session-id` header value is not
a key of the session table (so it is inside the claim's scope), yet
`if (!sessionId)` is a truthiness test and `''` is falsy, so the
request is routed to the initialization path: the first variant
answers 200 and *adds* a table entry for an initialization body (and
would answer 400 otherwise); the second variant writes no response at
all.  Neither variant produces the claimed 401 rejection, and the
table can change. -/
theorem empty_session_header_not_rejected :
    List.lookup "" ([] : SessionTable) = none ∧
    handleMcpPostV1 [] (some "") .init 0 "gen" =
      ({ status := 200, body := .initialized "gen" },
        [("gen", { lastActivity := 0, createdAt := 0 })]) ∧
    handleMcpAllV2 [] (some "") .init = (none, []) :=
  ⟨rfl, rfl, rfl⟩

/-- C1 amended: a `POST /mcp` whose `mcp-session-id` header is
*non-empty* and not a key of the session table is answered, in both
entrypoint variants, with HTTP 401 and the JSON body `{jsonrpc:'2.0',
error:{code:-32001, message:'Invalid session, please reinitialize'},
id:null}`, and the session table is left unchanged (no session is
created under that id); an empty header value is falsy and is routed
to the no-session initialization path instead. -/
theorem unknown_session_rejected_401 (t : SessionTable) (t2 : List String)
    (s : String) (body : ReqBody) (now : Nat) (genId : String)
    (h0 : s ≠ "") (h1 : List.lookup s t = none) (h2 : s ∉ t2) :
    handleMcpPostV1 t (some s) body now genId = (invalidSessionResponse, t) ∧
    invalidSessionResponse =
      { status := 401,
        body := .jsonRpcError "2.0" (-32001) "Invalid session, please reinitialize" true } ∧
    handleMcpAllV2 t2 (some s) body = (some invalidSessionResponse, t2) := by
  refine ⟨?_, rfl, ?_⟩
  · dsimp only [handleMcpPostV1]
    rw [if_neg h0, h1]
  · dsimp only [handleMcpAllV2]
    rw [if_neg h0, if_neg h2]

/-- Witness for the amended C1 at a concrete table and a non-empty
unknown id. -/
theorem unknown_session_rejected_401_witness :
    handleMcpPostV1 [("a", ⟨0, 0⟩)] (some "b") (.nonInit "x") 5 "g" =
      (invalidSessionResponse, [("a", ⟨0, 0⟩)]) :=
  (unknown_session_rejected_401 [("a", ⟨0, 0⟩)] ["a"] "b" (.nonInit "x") 5 "g"
    (by decide) rfl (by decide)).1

/-- C3 counterexample: in the second entrypoint variant, a `/mcp`
request with no session header and a non-initialization body is not
rejected at all — the handler constructs a transport whose session id is
unset, skips the guarded block, and writes no response (`none`) — so the
claimed "bad request: session required" rejection is not produced. -/
theorem sessionless_non_init_no_response :
    handleMcpAllV2 [] none (.nonInit "tools/call") = (none, []) := rfl

/-- C3 amended: a sessionless non-initialization request never creates a
session-table entry in either variant; the first variant delegates to a
fresh transport which (per the spec's description of the SDK transport)
rejects it with a 400 "Bad Request: session required" error, while the
second variant sends no response at all. -/
theorem sessionless_non_init_rejected (t : SessionTable) (t2 : List String)
    (p : String) (now : Nat) (genId : String) :
    handleMcpPostV1 t none (.nonInit p) now genId =
      ({ status := 400, body := .badRequest "Bad Request: session required" }, t) ∧
    handleMcpAllV2 t2 none (.nonInit p) = (none, t2) :=
  ⟨rfl, rfl⟩

/-- C6: closing a session over `DELETE /mcp` is idempotent: for an
absent or never-created id the handler never throws (it is total by
construction), leaves the table unchanged, closes nothing and still
answers 200 `Session terminated`; for a live id it closes exactly that
transport, removes exactly that entry, answers the same 200, and a
second `DELETE` for the same id is a no-op. -/
theorem delete_mcp_idempotent_close (t : SessionTable) (s : String) :
    (List.lookup s t = none →
      handleMcpDeleteV1 t (some s) =
        ({ status := 200, body := .text "Session terminated" }, t, [])) ∧
    (∀ e, List.lookup s t = some e →
      (handleMcpDeleteV1 t (some s)).1 =
          { status := 200, body := .text "Session terminated" } ∧
      (handleMcpDeleteV1 t (some s)).2.2 = [s] ∧
      List.lookup s (handleMcpDeleteV1 t (some s)).2.1 = none ∧
      (∀ k, k ≠ s →
        List.lookup k (handleMcpDeleteV1 t (some s)).2.1 = List.lookup k t) ∧
      handleMcpDeleteV1 (handleMcpDeleteV1 t (some s)).2.1 (some s) =
        ({ status := 200, body := .text "Session terminated" },
          (handleMcpDeleteV1 t (some s)).2.1, [])) := by
  constructor
  · intro h
    dsimp only [handleMcpDeleteV1]
    rw [h]
  · intro e h
    dsimp only [handleMcpDeleteV1]
    rw [h]
    refine ⟨rfl, rfl, lookup_filter_self t s, fun k hk => lookup_filter_ne t s k hk, ?_⟩
    dsimp only
    rw [lookup_filter_self t s]

/-- Witness for C6: deleting a never-created id at a concrete table. -/
theorem delete_mcp_idempotent_close_witness :
    handleMcpDeleteV1 [("a", ⟨1, 2⟩)] (some "b") =
      ({ status := 200, body := .text "Session terminated" }, [("a", ⟨1, 2⟩)], []) :=
  (delete_mcp_idempotent_close [("a", ⟨1, 2⟩)] "b").1 rfl

/-- C9: for a `search_atoms` execution with `n` queries, the query
document is built from the truncated `queries.slice(0, 5)` and declares
`min(n, 5)` variables, while the variables object carries one entry
`like{i}Str ↦ '%' ++ queries[i]` (leading wildcard only) for every
`i < n`; hence for `n > 5` the request carries a variable the query
document does not declare. -/
theorem search_atoms_truncated_query_full_vars (queries : List String) :
    (atomSearchRequest queries).1 = SEARCH_ATOMS (queries.take 5) ∧
    (searchAtomsDeclaredNames (queries.take 5)).length = min queries.length 5 ∧
    (atomSearchRequest queries).2.length = queries.length ∧
    (∀ i, i < queries.length →
      (atomSearchRequest queries).2.get? i =
        some (searchAtomsVarName i, "%" ++ queries.getD i "")) ∧
    (5 < queries.length → ∃ p ∈ (atomSearchRequest queries).2,
      p.1 ∉ searchAtomsDeclaredNames (queries.take 5)) := by
  have hget : ∀ i, i < queries.length →
      (atomSearchRequest queries).2.get? i =
        some (searchAtomsVarName i, "%" ++ queries.getD i "") := by
    intro i hi
    dsimp only [atomSearchRequest, atomSearchVars]
    rw [List.get?_eq_getElem?, List.getElem?_map, List.getElem?_range hi]
    rfl
  refine ⟨rfl, ?_, ?_, hget, ?_⟩
  · simp [searchAtomsDeclaredNames, List.length_take, Nat.min_comm]
  · simp [atomSearchRequest, atomSearchVars]
  · intro h5
    refine ⟨(searchAtomsVarName 5, "%" ++ queries.getD 5 ""), ?_, ?_⟩
    · exact List.get?_mem (hget 5 h5)
    · have htake : (queries.take 5).length = 5 := by
        simp [List.length_take, Nat.min_eq_left (Nat.le_of_lt h5)]
      rw [searchAtomsDeclaredNames, htake]
      dsimp only
      decide

/-- Witness for C9: six queries — the sixth variable `like5Str` is sent
but not declared. -/
theorem search_atoms_truncated_query_full_vars_witness :
    5 < (["a", "b", "c", "d", "e", "f"] : List String).length ∧
    ∃ p ∈ (atomSearchRequest ["a", "b", "c", "d", "e", "f"]).2,
      p.1 ∉ searchAtomsDeclaredNames (["a", "b", "c", "d", "e", "f"].take 5) :=
  ⟨by decide,
    (search_atoms_truncated_query_full_vars ["a", "b", "c", "d", "e", "f"]).2.2.2.2
      (by decide)⟩

/-- C10: when the `search_lists` GraphQL response's `predicate_objects`
is an empty array or not an array at all, `execute` returns exactly the
success-flagged no-results text result, with no resource item. -/
theorem search_lists_empty_results (args : SearchListsArgs) (w : World)
    (hq : 1 ≤ args.query.length)
    (hr : w.searchLists ("%" ++ args.query ++ "%") = .ok none ∨
          w.searchLists ("%" ++ args.query ++ "%") = .ok (some [])) :
    searchListsExecute args w =
      { isError := some false,
        content := [.text "No lists found matching your search criteria." none],
        hasMeta := false } := by
  dsimp only [searchListsExecute]
  rw [if_pos hq]
  rcases hr with h | h <;> rw [h] <;> rfl

/-- Witness for C10 at a concrete query and an empty-array response. -/
theorem search_lists_empty_results_witness :
    searchListsExecute ⟨"x"⟩ worldOk =
      { isError := some false,
        content := [.text "No lists found matching your search criteria." none],
        hasMeta := false } :=
  search_lists_empty_results ⟨"x"⟩ worldOk (by decide) (Or.inr rfl)

/-- C4 counterexample: calling the dispatcher with `search_atoms` and an
empty argument object does not produce the claimed
`{content:[{type:'text', text:'Validation Error: ...'}], isError:true}`:
the `ZodError` thrown by the dispatcher-level `parse` is converted by
the generic catch block, so the text begins with `Error: `, not
`Validation Error:`, and no `isError` flag is set. -/
theorem search_atoms_empty_args_not_validation_result :
    (dispatchToolCall "search_atoms" (some []) worldOk).isError = none ∧
    (dispatchToolCall "search_atoms" (some []) worldOk).content =
      [.text ("Error: " ++ zodMessage ["Required"]) none] ∧
    ¬ ("Validation Error:".data <+: ("Error: " ++ zodMessage ["Required"]).data) :=
  ⟨rfl, rfl, by decide⟩

/-- C4 amended: `callTool("search_atoms", {})` returns
`{content:[{type:'text', text:'Error: <Zod issue list>'}]}` with the
`_meta` field and with no `isError` flag: the validation failure is
surfaced through the dispatcher's generic catch block, whose text
prefix is `Error: `. -/
theorem search_atoms_empty_args_error_result (w : World) :
    dispatchToolCall "search_atoms" (some []) w =
      { content := [.text ("Error: " ++ zodMessage ["Required"]) none],
        isError := none, hasMeta := true } := rfl

/-- C7 counterexample: with an empty (but present) argument object the
guard `if (!request.params.arguments)` does not fire — an empty object
is truthy — so the dispatcher proceeds and the resulting error text
does not describe "arguments required": for `no_such_tool` with `{}` it
is the unknown-tool error. -/
theorem empty_args_no_arguments_required_text :
    dispatchToolCall "no_such_tool" (some []) worldOk =
      { content := [.text "Error: Unknown tool: no_such_tool" none],
        isError := none, hasMeta := true } ∧
    ¬ ("arguments".data <:+: "Error: Unknown tool: no_such_tool".data) ∧
    ¬ ("Arguments".data <:+: "Error: Unknown tool: no_such_tool".data) :=
  ⟨rfl, by decide, by decide⟩

/-- C7 amended: only absent arguments trigger the `Arguments are
required` error result; an empty argument mapping passes the truthiness
guard and the call proceeds to schema validation or unknown-tool
handling (here: the unknown-tool error). -/
theorem absent_args_required_empty_args_proceed (name : String) (w : World) :
    dispatchToolCall name none w =
      { content := [.text "Error: Arguments are required" none],
        isError := none, hasMeta := true } ∧
    dispatchToolCall "no_such_tool" (some []) w =
      { content := [.text "Error: Unknown tool: no_such_tool" none],
        isError := none, hasMeta := true } :=
  ⟨rfl, rfl⟩

/-- C8: every tool name matching no registered tool yields the error
ToolResult `{content:[{type:'text', text:'Error: Unknown tool:
<name>'}]}` (the default case throws and the catch block wraps the
message); in particular `no_such_tool` with non-empty arguments gives
exactly `Error: Unknown tool: no_such_tool`. -/
theorem unknown_tool_error_result (name : String)
    (hname : name ∉ registeredTools) (w : World) (args : Args)
    (_h : args ≠ []) :
    dispatchToolCall name (some args) w =
      { content := [.text ("Error: Unknown tool: " ++ name) none],
        isError := none, hasMeta := true } := by
  simp only [registeredTools, List.mem_cons, List.not_mem_nil, or_false,
    not_or] at hname
  obtain ⟨e1, e2, e3, e4, e5, e6, e7⟩ := hname
  dsimp only [dispatchToolCall, dispatchExc]
  rw [if_neg e1, if_neg e2, if_neg e3, if_neg e4, if_neg e5, if_neg e6,
    if_neg e7]
  rfl

/-- Witness for C8: the unregistered name `no_such_tool` with the
non-empty arguments `{x: 1}`. -/
theorem unknown_tool_error_result_witness :
    dispatchToolCall "no_such_tool" (some [("x", .num 1)]) worldOk =
      { content := [.text "Error: Unknown tool: no_such_tool" none],
        isError := none, hasMeta := true } :=
  unknown_tool_error_result "no_such_tool" (by decide) worldOk
    [("x", .num 1)] (by decide)

/-- A concrete JavaScript stack trace, as `error.stack` carries it. -/
def sampleStack : String :=
  "Error: boom\n    at execute (/app/src/operations/search-lists.ts:56:29)"

/-- An oracle whose `search_lists` GraphQL call rejects with an `Error`
carrying a stack trace. -/
def worldStackErr : World :=
  { worldOk with searchLists := fun _ => .error (.jsError "boom" (some sampleStack)) }

/-- C5 counterexample: when the `search_lists` GraphQL call throws, the
handler's own `Error` branch returns a ToolResult whose second text
item is `Details: <error.stack>` — the stack trace verbatim in a
caller-visible text field, which the dispatcher passes through
unchanged. -/
theorem stack_trace_reaches_caller :
    (dispatchToolCall "search_lists" (some [("query", .str "x")]) worldStackErr).content =
      [.text "Operation Error: boom" none,
       .text ("Details: " ++ sampleStack) none] ∧
    sampleStack.data <:+: ("Details: " ++ sampleStack).data :=
  ⟨rfl, by decide⟩

/-- C5 amended: an exception that escapes a handler and reaches the
dispatcher's catch block is wrapped with only its message (the stack is
dropped); but the `search_lists` handler catches `Error`s internally
and returns a result whose second text item carries `error.stack`
(`Details: ...`), so stack traces can reach the caller on that path. -/
theorem dispatcher_message_only_search_lists_stack (name : String)
    (rawArgs : Option Args) (w1 w2 : World) (m1 m2 : String)
    (st1 st2 : Option String) (args : SearchListsArgs)
    (he : dispatchExc name rawArgs w1 = .error (.jsError m1 st1))
    (hq : 1 ≤ args.query.length)
    (hl : w2.searchLists ("%" ++ args.query ++ "%") = .error (.jsError m2 st2)) :
    dispatchToolCall name rawArgs w1 =
      { content := [.text ("Error: " ++ m1) none],
        isError := none, hasMeta := true } ∧
    searchListsExecute args w2 =
      { isError := some true,
        content := [.text ("Operation Error: " ++ m2) none,
                    .text ("Details: " ++ st2.getD "No stack trace available") none],
        hasMeta := false } := by
  constructor
  · dsimp only [dispatchToolCall]
    rw [he]
    rfl
  · dsimp only [searchListsExecute]
    rw [if_pos hq, hl]

/-- Witness for the amended C5: a dispatcher-level throw (absent
arguments) keeps only the message; a `search_lists`-internal `Error`
with a stack yields the `Details:` item. -/
theorem dispatcher_message_only_search_lists_stack_witness :
    dispatchToolCall "z" none worldOk =
      { content := [.text "Error: Arguments are required" none],
        isError := none, hasMeta := true } ∧
    searchListsExecute ⟨"x"⟩ worldStackErr =
      { isError := some true,
        content := [.text "Operation Error: boom" none,
                    .text ("Details: " ++ sampleStack) none],
        hasMeta := false } :=
  dispatcher_message_only_search_lists_stack "z" none worldOk worldStackErr
    "Arguments are required" "boom" none (some sampleStack) ⟨"x"⟩ rfl (by decide) rfl

theorem atomSearchExecute_content_ne_nil (a : SearchAtomsArgs) (w : World) :
    (atomSearchExecute a w).content ≠ [] := by
  dsimp only [atomSearchExecute]
  split <;> simp

theorem searchListsExecute_content_ne_nil (a : SearchListsArgs) (w : World) :
    (searchListsExecute a w).content ≠ [] := by
  dsimp only [searchListsExecute]
  split
  · split
    · split <;> simp
    · simp
    · simp
    · simp
  · simp

theorem accountInfoExecute_content_ne_nil (a : AccountInfoArgs) (w : World) :
    (accountInfoExecute a w).content ≠ [] := by
  dsimp only [accountInfoExecute]
  split <;> simp

theorem getFollowingExecute_content_ne_nil (a : FollowArgs) (w : World) :
    (getFollowingExecute a w).content ≠ [] := by
  dsimp only [getFollowingExecute]
  split <;> simp

theorem getFollowersExecute_content_ne_nil (a : FollowArgs) (w : World) :
    (getFollowersExecute a w).content ≠ [] := by
  dsimp only [getFollowersExecute]
  split <;> simp

theorem searchAccountIdsExecute_content_ne_nil (a : SearchAccountIdsArgs)
    (w : World) : (searchAccountIdsExecute a w).content ≠ [] := by
  dsimp only [searchAccountIdsExecute]
  split <;> simp

theorem dispatchExc_ok_content_ne_nil (name : String) (rawArgs : Option Args)
    (w : World) (r : ToolResult) (h : dispatchExc name rawArgs w = .ok r) :
    r.content ≠ [] := by
  rcases rawArgs with _ | args
  · simp [dispatchExc] at h
  · dsimp only [dispatchExc] at h
    split_ifs at h
    · split at h
      · simp at h
      · injection h with h2
        subst h2
        simp
    · split at h
      · simp at h
      · injection h with h2
        subst h2
        exact atomSearchExecute_content_ne_nil _ w
    · split at h
      · simp at h
      · injection h with h2
        subst h2
        exact accountInfoExecute_content_ne_nil _ w
    · split at h
      · simp at h
      · injection h with h2
        subst h2
        exact searchListsExecute_content_ne_nil _ w
    · split at h
      · simp at h
      · injection h with h2
        subst h2
        exact getFollowingExecute_content_ne_nil _ w
    · split at h
      · simp at h
      · injection h with h2
        subst h2
        exact getFollowersExecute_content_ne_nil _ w
    · split at h
      · simp at h
      · injection h with h2
        subst h2
        exact searchAccountIdsExecute_content_ne_nil _ w

/-- C2: the dispatcher is a total function — for every tool name, raw
argument value and remote outcome it returns a ToolResult with a
non-empty content sequence (the content items are well-formed by
construction of `ContentItem`), and every exception escaping the try
block (missing arguments, unknown name, schema-validation failure of
any tool) is converted by the catch block into the error-text
envelope, never rethrown. -/
theorem call_tool_total_wellformed (name : String) (rawArgs : Option Args)
    (w : World) :
    (dispatchToolCall name rawArgs w).content ≠ [] ∧
    ∀ e, dispatchExc name rawArgs w = .error e →
      dispatchToolCall name rawArgs w =
        { content := [.text (jsErrorText e) none],
          isError := none, hasMeta := true } := by
  constructor
  · dsimp only [dispatchToolCall]
    rcases hE : dispatchExc name rawArgs w with e | r
    · simp
    · exact dispatchExc_ok_content_ne_nil name rawArgs w r hE
  · intro e he
    dsimp only [dispatchToolCall]
    rw [he]

/-- Witness for C2: the catch-block conversion at a concrete failing
call (absent arguments). -/
theorem call_tool_total_wellformed_witness :
    dispatchToolCall "nope" none worldOk =
      { content := [.text "Error: Arguments are required" none],
        isError := none, hasMeta := true } :=
  (call_tool_total_wellformed "nope" none worldOk).2
    (.jsError "Arguments are required" none) rfl

end IntuitionMcp
